import Mathlib

/-!
Verification development for mxEdgeHandler (mxgraph, `src/js/handler/mxEdgeHandler.js`).

Shallow embedding of the edge-handler's gesture-to-geometry pipeline:
coordinates are rationals (JS numbers restricted to the exact arithmetic the
handler performs), the graph model is an explicit record with association-list
stores, fallible paths (JS null dereferences) return `Except`, and the
begin/endUpdate bracketing behaviour of the commit operations is captured as
event traces.  External collaborators (view transform, marker, constraint
handler, model primitives) enter either as explicit parameters or as small
definitions modelled from the specification where noted.
-/

namespace MxEdge

/-- A 2D point (mxPoint): logical or screen coordinates. -/
structure Pt where
  x : ℚ
  y : ℚ
deriving DecidableEq, Repr

/-- A rectangle (mxRectangle): origin plus width/height. -/
structure Rect where
  x : ℚ
  y : ℚ
  w : ℚ
  h : ℚ
deriving DecidableEq, Repr

/-- Edge geometry (mxGeometry, the fields mxEdgeHandler manipulates):
optional interior waypoints, the relative label anchor `x`/`y`, the label
offset, and the explicit source/target terminal points used for dangling
ends. -/
structure Geometry where
  points : Option (List Pt)
  x : ℚ
  y : ℚ
  offset : Option Pt
  sourcePoint : Option Pt
  targetPoint : Option Pt
deriving DecidableEq, Repr

/-- `mxGeometry.setTerminalPoint(point, isSource)`: stores the explicit
terminal point for the given end. -/
def Geometry.setTerminalPoint (g : Geometry) (p : Pt) (isSource : Bool) : Geometry :=
  if isSource then { g with sourcePoint := some p } else { g with targetPoint := some p }

/-! ### Association lists: the stores of the graph-model record -/

/-- Lookup in an association list keyed by cell id. -/
def alLookup (l : List (Nat × α)) (k : Nat) : Option α :=
  match l with
  | [] => none
  | (k2, v) :: rest => if k2 = k then some v else alLookup rest k

/-- Update (insert or replace) in an association list keyed by cell id. -/
def alUpdate (l : List (Nat × α)) (k : Nat) (v : α) : List (Nat × α) :=
  match l with
  | [] => [(k, v)]
  | (k2, v2) :: rest => if k2 = k then (k2, v) :: rest else (k2, v2) :: alUpdate rest k v

/-- Remove a key from an association list. -/
def alRemove (l : List (Nat × α)) (k : Nat) : List (Nat × α) :=
  match l with
  | [] => []
  | (k2, v2) :: rest => if k2 = k then alRemove rest k else (k2, v2) :: alRemove rest k

theorem alLookup_update_self (l : List (Nat × α)) (k : Nat) (v : α) :
    alLookup (alUpdate l k v) k = some v := by
  induction l with
  | nil => simp [alLookup, alUpdate]
  | cons hd tl ih =>
    obtain ⟨k2, v2⟩ := hd
    by_cases h : k2 = k <;> simp [alLookup, alUpdate, h, ih]

theorem alLookup_update_ne (l : List (Nat × α)) (k j : Nat) (v : α) (h : k ≠ j) :
    alLookup (alUpdate l k v) j = alLookup l j := by
  induction l with
  | nil => simp [alLookup, alUpdate, h]
  | cons hd tl ih =>
    obtain ⟨k2, v2⟩ := hd
    by_cases h2 : k2 = k
    · subst h2
      simp [alLookup, alUpdate, h]
    · simp [alLookup, alUpdate, h2, ih]

theorem alLookup_remove_ne (l : List (Nat × α)) (k j : Nat) (h : k ≠ j) :
    alLookup (alRemove l k) j = alLookup l j := by
  induction l with
  | nil => simp [alLookup, alRemove]
  | cons hd tl ih =>
    obtain ⟨k2, v2⟩ := hd
    by_cases h2 : k2 = k
    · subst h2
      have h3 : ¬ k2 = j := h
      simp [alLookup, alRemove, h3, ih]
    · simp [alLookup, alRemove, h2, ih]

theorem alLookup_remove_self (l : List (Nat × α)) (k : Nat) :
    alLookup (alRemove l k) k = none := by
  induction l with
  | nil => simp [alLookup, alRemove]
  | cons hd tl ih =>
    obtain ⟨k2, v2⟩ := hd
    by_cases h2 : k2 = k <;> simp [alLookup, alRemove, h2, ih]

/-! ### The graph model (mxGraphModel contract, §6 of the spec)

Cells are identified by `Nat` ids.  The model stores, per cell, its parent,
its source/target terminals (absent = dangling) and its geometry.  `nextId`
is the id handed to the next cell created by cloning. -/

structure GraphModel where
  cells : List Nat
  parentOf : List (Nat × Nat)
  sourceOf : List (Nat × Nat)
  targetOf : List (Nat × Nat)
  geometryOf : List (Nat × Geometry)
  nextId : Nat
deriving DecidableEq, Repr

/-- `mxGraphModel.getTerminal(cell, isSource)`. -/
def getTerminal (m : GraphModel) (cell : Nat) (isSource : Bool) : Option Nat :=
  alLookup (if isSource then m.sourceOf else m.targetOf) cell

/-- `mxGraphModel.getGeometry(cell)` (also `mxGraph.getCellGeometry`, which
delegates to it). -/
def getGeometry (m : GraphModel) (cell : Nat) : Option Geometry :=
  alLookup m.geometryOf cell

/-- `mxGraphModel.setGeometry(cell, geometry)`. -/
def setGeometry (m : GraphModel) (cell : Nat) (g : Geometry) : GraphModel :=
  { m with geometryOf := alUpdate m.geometryOf cell g }

/-- Modelled from the spec: `mxGraph.connectCell(edge, terminal, isSource,
constraint)` is outside `src/`; per §4.4 a reconnect "set[s] the given end's
terminal to terminalCell" and ChangeTerminalPoint "clear[s] any terminal-cell
attachment for that end" (terminal absent).  Constraint bookkeeping has no
bearing on the claims and is not modelled. -/
def connectCell (m : GraphModel) (edge : Nat) (terminal : Option Nat) (isSource : Bool) :
    GraphModel :=
  match terminal with
  | some t =>
      if isSource then { m with sourceOf := alUpdate m.sourceOf edge t }
      else { m with targetOf := alUpdate m.targetOf edge t }
  | none =>
      if isSource then { m with sourceOf := alRemove m.sourceOf edge }
      else { m with targetOf := alRemove m.targetOf edge }

/-! ### Model transaction traces (for the begin/endUpdate bracketing claims)

Each commit operation is rendered a second time as the sequence of model
calls it performs.  A `throws` flag makes the operation's model mutation
raise: the events of the throwing call and everything after it inside the
`try` are absent, but a `finally`-guarded `endUpdate` still appears. -/

inductive MEvent where
  | beginUpdate
  | endUpdate
  | setGeometryE
  | connectCellE
  | addE
deriving DecidableEq, BEq, Repr

/-- Which trace events mutate the model. -/
def MEvent.isMutation : MEvent → Bool
  | .setGeometryE => true
  | .connectCellE => true
  | .addE => true
  | _ => false

/-- A trace is bracketed when every mutation event occurs at positive
begin/endUpdate nesting depth. -/
def mutationsBracketed (t : List MEvent) : Bool :=
  (t.foldl
    (fun acc e =>
      match e with
      | MEvent.beginUpdate => (acc.1, acc.2 + 1)
      | MEvent.endUpdate => (acc.1, acc.2 - 1)
      | e2 => (acc.1 && (!e2.isMutation || decide (0 < acc.2)), acc.2))
    ((true, 0) : Bool × Nat)).1

/-- Trace of `mxEdgeHandler.prototype.connect` (lines 1124-1159):
`beginUpdate`; inside `try`: when cloning, `model.add` and a first
`connectCell` for the untouched end; then the reconnecting `connectCell`;
`finally`: `endUpdate`.  `throws` makes the final `connectCell` raise. -/
def connectEvents (isClone throws : Bool) : List MEvent :=
  [MEvent.beginUpdate]
    ++ (if isClone then [MEvent.addE, MEvent.connectCellE] else [])
    ++ (if throws then [] else [MEvent.connectCellE])
    ++ [MEvent.endUpdate]

/-- Trace of `mxEdgeHandler.prototype.changeTerminalPoint` (lines 1166-1186):
nothing when the geometry is absent; otherwise `beginUpdate`, then inside
`try` a `setGeometry` followed by a detaching `connectCell`, with `endUpdate`
in `finally`.  `throws` makes `setGeometry` raise. -/
def changeTerminalPointEvents (geoPresent throws : Bool) : List MEvent :=
  if geoPresent then
    [MEvent.beginUpdate]
      ++ (if throws then [] else [MEvent.setGeometryE, MEvent.connectCellE])
      ++ [MEvent.endUpdate]
  else []

/-- Trace of `mxEdgeHandler.prototype.changePoints` (lines 1193-1205): a bare
`setGeometry` when the geometry is present, with no begin/endUpdate around
it. -/
def changePointsEvents (geoPresent : Bool) : List MEvent :=
  if geoPresent then [MEvent.setGeometryE] else []

/-- Trace of `mxEdgeHandler.prototype.moveLabel` (lines 1083-1106): a bare
`setGeometry` when the geometry is present. -/
def moveLabelEvents (geoPresent : Bool) : List MEvent :=
  if geoPresent then [MEvent.setGeometryE] else []

/-- Trace of `mxEdgeHandler.prototype.addPointAt` (lines 1227-1252): a bare
`setGeometry` when the geometry is present (the destroy/init rebuild touches
no model state). -/
def addPointAtEvents (geoPresent : Bool) : List MEvent :=
  if geoPresent then [MEvent.setGeometryE] else []

/-- Trace of `mxEdgeHandler.prototype.removePoint` (lines 1259-1274): a bare
`setGeometry` when the index is interior and the geometry has points. -/
def removePointEvents (indexInterior geoPointsPresent : Bool) : List MEvent :=
  if indexInterior && geoPointsPresent then [MEvent.setGeometryE] else []

/-! ### GeometryMath: point conversion and snapping -/

/-- Modelled from the spec: `mxGraph.snap` is outside `src/`; §8 describes
grid snapping as producing "an integer multiple of grid size", i.e. rounding
to the nearest multiple of `gridSize` (JS `Math.round` rounds half up, as
does Mathlib's `round`). -/
def snap (gridSize v : ℚ) : ℚ :=
  (round (v / gridSize) : ℤ) * gridSize

/-- `mxEdgeHandler.prototype.convertPoint` (lines 1046-1070): converts a
screen point in place to unscaled, untranslated graph coordinates, with
optional grid snapping, rounding to integers, and subtraction of the parent
state's origin when present. -/
def convertPoint (gridEnabled : Bool) (gridSize scale : ℚ) (tr : Pt)
    (pstateOrigin : Option Pt) (p : Pt) : Pt :=
  let p1 : Pt := if gridEnabled then ⟨snap gridSize p.x, snap gridSize p.y⟩ else p
  let p2 : Pt := ⟨(round (p1.x / scale - tr.x) : ℤ), (round (p1.y / scale - tr.y) : ℤ)⟩
  match pstateOrigin with
  | some o => ⟨p2.x - o.x, p2.y - o.y⟩
  | none => p2

/-- `mxEdgeHandler.prototype.getSnapToTerminalTolerance` (lines 655-658):
`gridSize * scale / 2`. -/
def getSnapToTerminalTolerance (gridSize scale : ℚ) : ℚ :=
  gridSize * scale / 2

/-- One axis of the inner `snapToPoint` helper of `getPointForEvent`: if the
candidate coordinate is within the tolerance of the current value, the
current value is overwritten and the override flag set. -/
def snapAxis (tt : ℚ) (v : ℚ) (ov : Bool) (cand : ℚ) : ℚ × Bool :=
  if |v - cand| < tt then (cand, true) else (v, ov)

/-- The `snapToPoint` helper of `getPointForEvent` applied to an optional
candidate point: both axes are treated independently. -/
def snapToPoint (tt : ℚ) (st : Pt × Bool × Bool) (cand : Option Pt) : Pt × Bool × Bool :=
  match cand with
  | none => st
  | some c =>
      let xr := snapAxis tt st.1.x st.2.1 c.x
      let yr := snapAxis tt st.1.y st.2.2 c.y
      (⟨xr.1, yr.1⟩, xr.2, yr.2)

/-- The number of iterations of the loop
`for (var i = 0; i < this.abspoints; i++)` in `getPointForEvent` (line 713).
The loop bound is the array `this.abspoints` itself, not its length; the JS
comparison coerces the array with ToNumber, which yields NaN for a non-empty
array of points and 0 for the empty array, so `i < this.abspoints` never
holds and the body never executes. -/
def abspointsLoopIterations (_abspoints : List (Option Pt)) : Nat := 0

/-- `mxEdgeHandler.prototype.getPointForEvent` (lines 665-740): starts from
the pointer's graph coordinates; when `snapToTerminals` is set and the
tolerance positive, snaps per axis against the source terminal's routing
center, then the target terminal's, then runs the (never-executing, see
`abspointsLoopIterations`) loop over the other absolute points; finally
applies grid snapping to each axis that was not overridden by a snap. -/
def getPointForEvent (snapToTerminals : Bool) (gridSize scale : ℚ) (gridEnabled : Bool)
    (tr : Pt) (srcCenter tgtCenter : Option Pt) (abspoints : List (Option Pt))
    (index : Option Int) (gx gy : ℚ) : Pt :=
  let tt := getSnapToTerminalTolerance gridSize scale
  let st0 : Pt × Bool × Bool := (⟨gx, gy⟩, false, false)
  let st :=
    if snapToTerminals && decide (0 < tt) then
      let s1 := snapToPoint tt st0 srcCenter
      let s2 := snapToPoint tt s1 tgtCenter
      (List.range (abspointsLoopIterations abspoints)).foldl
        (fun s i =>
          if some (Int.ofNat i) ≠ index then snapToPoint tt s ((abspoints.get? i).join)
          else s)
        s2
    else st0
  if gridEnabled then
    let px := if st.2.1 then st.1.x else (snap gridSize (st.1.x / scale - tr.x) + tr.x) * scale
    let py := if st.2.2 then st.1.y else (snap gridSize (st.1.y / scale - tr.y) + tr.y) * scale
    ⟨px, py⟩
  else st.1

/-- The snapping behaviour as claim C5 states it (for comparison with
`getPointForEvent`): candidates are the two terminal routing centers and
every other existing absolute point excluding the dragged index, tried
independently per axis with the first candidate within tolerance of the
original pointer coordinate winning that axis. -/
def getPointForEventClaimed (snapToTerminals : Bool) (gridSize scale : ℚ)
    (gridEnabled : Bool) (tr : Pt) (srcCenter tgtCenter : Option Pt)
    (abspoints : List (Option Pt)) (index : Option Int) (gx gy : ℚ) : Pt :=
  let tt := getSnapToTerminalTolerance gridSize scale
  let others :=
    (List.range abspoints.length).filterMap
      (fun i => if some (Int.ofNat i) ≠ index then (abspoints.get? i).join else none)
  let cands := ([srcCenter, tgtCenter].filterMap id) ++ others
  let hitX := if snapToTerminals && decide (0 < tt) then
      cands.find? (fun c => |gx - c.x| < tt) else none
  let hitY := if snapToTerminals && decide (0 < tt) then
      cands.find? (fun c => |gy - c.y| < tt) else none
  let px := match hitX with
    | some c => c.x
    | none => if gridEnabled then (snap gridSize (gx / scale - tr.x) + tr.x) * scale else gx
  let py := match hitY with
    | some c => c.y
    | none => if gridEnabled then (snap gridSize (gy / scale - tr.y) + tr.y) * scale else gy
  ⟨px, py⟩

/-! ### PreviewBuilder -/

/-- `mxEdgeHandler.prototype.getPreviewTerminalState` (lines 747-769), after
the constraint handler update and marker processing: the marker's valid
state is captured first; the marker is then reset whenever the constraint
handler has both a focus and a constraint; the captured state, when present,
is returned, otherwise the constraint focus when focus and constraint are
both present.  Result: `(returned preview terminal state, whether the marker
was reset)`.  States/cells are identified by `Nat` ids. -/
def getPreviewTerminalState (validState : Option Nat) (currentFocus : Option Nat)
    (currentConstraint : Option Nat) : Option Nat × Bool :=
  let doReset := currentFocus.isSome && currentConstraint.isSome
  let result :=
    if validState.isSome then validState
    else if currentConstraint.isSome && currentFocus.isSome then currentFocus
    else none
  (result, doReset)

/-- `mxEdgeHandler.prototype.getPreviewPoints` (lines 776-800).  The JS reads
`geometry.points` without a null check on `geometry`, so an absent geometry
raises a TypeError (`Except.error`).  Interior-waypoint drags convert the
point (grid disabled) and replace entry `index - 1` of the cloned waypoint
list (sole entry if the list was absent); endpoint drags clear the list when
`resetEdgesOnConnect` is set.  The interior-waypoint write `points[index-1] =
point` is embedded as `List.set`; the JS out-of-range array extension is
outside the handler invariant (handle `i` ↔ `points[i-1]`) under which the
function is used and under which the theorems quantify. -/
def getPreviewPoints (geometry : Option Geometry) (isSource isTarget : Bool)
    (resetEdgesOnConnect : Bool) (index : Nat) (scale : ℚ) (tr : Pt)
    (pstateOrigin : Option Pt) (p : Pt) : Except Unit (Option (List Pt)) :=
  match geometry with
  | none => Except.error ()
  | some geo =>
      let points := geo.points
      if !isSource && !isTarget then
        let cp := convertPoint false 0 scale tr pstateOrigin p
        match points with
        | none => Except.ok (some [cp])
        | some ps => Except.ok (some (ps.set (index - 1) cp))
      else if resetEdgesOnConnect then Except.ok none
      else Except.ok points

/-- The validation-error update of `mxEdgeHandler.prototype.updatePreviewState`
(lines 807-854): when an endpoint is dragged and no terminal state resolved,
the edge's absolute terminal point is set directly (a view-side effect on the
preview clone, not modelled) and, if the marker also has no marked state, the
handler's error becomes `null` when dangling edges are allowed and the empty
string otherwise; in every other case the error is left as it was.  The
remaining body (fixed/floating terminal point and routed-points recomputation)
consists of view-layer calls on the preview clone and mutates no handler or
model state. -/
def updatePreviewState (isSource isTarget : Bool) (terminalState : Option Nat)
    (markedState : Option Nat) (allowDanglingEdges : Bool) (error : Option String) :
    Option String :=
  if (isSource || isTarget) && terminalState.isNone then
    if markedState.isNone then (if allowDanglingEdges then none else some "")
    else error
  else error

/-! ### HandleSet: hit-testing (`getHandleForEvent`) -/

/-- `mxEvent.LABEL_HANDLE`. -/
def LABEL_HANDLE : Int := -1

/-- A handle shape as `getHandleForEvent` observes it: whether it is shown
(neither `display: none` nor `visibility: hidden`), whether it is the direct
source of the event, and its bounds. -/
structure HShape where
  visible : Bool
  isEventSource : Bool
  bounds : Rect
deriving DecidableEq, Repr

/-- Modelled from the spec: `mxUtils.intersects` is outside `src/`; §4.1
describes the qualification as a "hit-test against a tolerance rectangle",
i.e. strict overlap of two positively-sized rectangles. -/
def intersects (a b : Rect) : Bool :=
  decide (0 < a.w) && decide (0 < a.h) && decide (0 < b.w) && decide (0 < b.h) &&
  decide (a.x < b.x + b.w) && decide (b.x < a.x + a.w) &&
  decide (a.y < b.y + b.h) && decide (b.y < a.y + a.h)

/-- Center of a rectangle. -/
def Rect.center (r : Rect) : Pt := ⟨r.x + r.w / 2, r.y + r.h / 2⟩

/-- Squared distance from the pointer to a shape's bounds center
(`dx * dx + dy * dy` in `checkShape`). -/
def distSq (gx gy : ℚ) (sh : HShape) : ℚ :=
  (gx - sh.bounds.center.x) * (gx - sh.bounds.center.x) +
    (gy - sh.bounds.center.y) * (gy - sh.bounds.center.y)

/-- The qualification test of the inner `checkShape` (lines 528-546): the
shape exists and is shown, and either is the event's direct source or its
bounds intersect the tolerance rectangle (when one is in use). -/
def qualifies (gx gy : ℚ) (hit : Option Rect) (sh : HShape) : Bool :=
  sh.visible && (sh.isEventSource ||
    (match hit with
     | some r => intersects sh.bounds r
     | none => false))

/-- The inner `checkShape` of `getHandleForEvent`: given the running minimum
squared distance, returns whether the shape takes over the result, together
with the updated minimum.  A qualifying shape wins when no minimum is
recorded yet or its distance is less than or equal to it. -/
def checkShape (gx gy : ℚ) (hit : Option Rect) (minDistSq : Option ℚ)
    (sh : Option HShape) : Bool × Option ℚ :=
  match sh with
  | none => (false, minDistSq)
  | some s =>
      if qualifies gx gy hit s then
        let tmp := distSq gx gy s
        match minDistSq with
        | none => (true, some tmp)
        | some m => if tmp ≤ m then (true, some tmp) else (false, some m)
      else (false, minDistSq)

/-- The `for` loop over `this.bends` in `getHandleForEvent` (lines 553-562),
written as recursion over the remaining bends with the running index. -/
def bendsLoop (gx gy : ℚ) (hit : Option Rect) :
    Nat → List HShape → Option Int × Option ℚ → Option Int × Option ℚ
  | _, [], st => st
  | i, sh :: rest, st =>
      bendsLoop gx gy hit (i + 1) rest
        (match checkShape gx gy hit st.2 (some sh) with
         | (true, d) => (some (Int.ofNat i), d)
         | (false, d) => (st.1, d))

/-- `mxEdgeHandler.prototype.getHandleForEvent` (lines 519-565).  `tol` is
the configured tolerance for non-mouse events and 1 for mouse events; the
tolerance rectangle exists when `allowHandleBoundsCheck` and (IE or a
positive tolerance).  The label handle is checked first: when the event's
direct source is the edge's text label the result is set to `LABEL_HANDLE`
without consulting `checkShape` (short-circuited `||`), otherwise via
`checkShape` on the label shape; then every bend is checked in index
order. -/
def getHandleForEvent (isMouseEvent : Bool) (tolCfg : ℚ)
    (allowHandleBoundsCheck isIE : Bool) (textIsSource : Bool)
    (labelShape : Option HShape) (bends : Option (List HShape)) (gx gy : ℚ) :
    Option Int :=
  let tol := if isMouseEvent then 1 else tolCfg
  let hit : Option Rect :=
    if allowHandleBoundsCheck && (isIE || decide (0 < tol)) then
      some ⟨gx - tol, gy - tol, 2 * tol, 2 * tol⟩
    else none
  let init : Option Int × Option ℚ :=
    if textIsSource then (some LABEL_HANDLE, none)
    else
      match checkShape gx gy hit none labelShape with
      | (true, d) => (some LABEL_HANDLE, d)
      | (false, d) => (none, d)
  let final :=
    match bends with
    | none => init
    | some bl => bendsLoop gx gy hit 0 bl init
  final.1

/-! Specification side of the hit-test: explicit candidate lists and a
right-recursive "minimum distance, later-checked handle wins ties" choice
function, for comparison with the left-to-right running-minimum fold the
code performs. -/

/-- The candidate entry a shape contributes: its handle index and its squared
center distance, provided it qualifies. -/
def shapeEntry (gx gy : ℚ) (hit : Option Rect) (idx : Int) (sh : HShape) :
    Option (Int × ℚ) :=
  if qualifies gx gy hit sh then some (idx, distSq gx gy sh) else none

/-- Candidate entries of the bends from a given starting index, in check
order. -/
def bendEntries (gx gy : ℚ) (hit : Option Rect) : Nat → List HShape → List (Int × ℚ)
  | _, [] => []
  | i, sh :: rest =>
      match shapeEntry gx gy hit (Int.ofNat i) sh with
      | some e => e :: bendEntries gx gy hit (i + 1) rest
      | none => bendEntries gx gy hit (i + 1) rest

/-- Candidate entry of the label handle (checked first).  `viaText` widens
the direct-event-source qualification to the edge's text label, as claim C9
reads it. -/
def labelEntries (gx gy : ℚ) (hit : Option Rect) (viaText : Bool)
    (labelShape : Option HShape) : List (Int × ℚ) :=
  match labelShape with
  | none => []
  | some l =>
      match shapeEntry gx gy hit LABEL_HANDLE
          { l with isEventSource := l.isEventSource || viaText } with
      | some e => [e]
      | none => []

/-- Minimum squared distance with ties resolved in favor of the later entry:
recursing from the right, an earlier entry displaces the best of the rest
only when strictly smaller. -/
def lastArgmin : List (Int × ℚ) → Option (Int × ℚ)
  | [] => none
  | (i, d) :: rest =>
      match lastArgmin rest with
      | none => some (i, d)
      | some (j, m) => if d < m then some (i, d) else some (j, m)

/-- `getHandleForEvent` as claim C9 states it: among the label handle (first)
and the bends (in index order) that qualify — bounds intersecting the
tolerance rectangle or being the event's direct source, with the edge's text
label counting as source for the label handle — the handle with minimum
squared center distance, ties to the later-checked handle; `none` when no
handle qualifies. -/
def getHandleForEventClaimed (isMouseEvent : Bool) (tolCfg : ℚ)
    (allowHandleBoundsCheck isIE : Bool) (textIsSource : Bool)
    (labelShape : Option HShape) (bends : Option (List HShape)) (gx gy : ℚ) :
    Option Int :=
  let tol := if isMouseEvent then 1 else tolCfg
  let hit : Option Rect :=
    if allowHandleBoundsCheck && (isIE || decide (0 < tol)) then
      some ⟨gx - tol, gy - tol, 2 * tol, 2 * tol⟩
    else none
  let cands := labelEntries gx gy hit textIsSource labelShape
      ++ bendEntries gx gy hit 0 (bends.getD [])
  (lastArgmin cands).map Prod.fst

/-! ### CommitOps: state semantics of the transactional operations -/

/-- The view-layer callbacks the commit operations consume (§6 contracts):
`getRelativePoint` and `getPoint` for `moveLabel`, `findNearestSegment` for
`addPointAt`.  They are parameters of the embedding, never inspected. -/
structure ViewFns where
  getRelativePoint : ℚ → ℚ → Pt
  getPoint : Geometry → Pt
  findNearestSegment : ℚ → ℚ → Nat

/-- `mxEdgeHandler.prototype.moveLabel` (lines 1083-1106): silently a no-op
when the geometry is absent; otherwise clones the geometry, stores the
view's relative point as the label anchor, zeroes the offset, asks the view
for the point implied by the new anchor, and stores the residual (divided by
the scale) as the new offset. -/
def moveLabel (view : ViewFns) (scale : ℚ) (m : GraphModel) (cell : Nat) (x y : ℚ) :
    GraphModel :=
  match getGeometry m cell with
  | none => m
  | some geo0 =>
      let pt := view.getRelativePoint x y
      let geo1 : Geometry := { geo0 with x := pt.x, y := pt.y, offset := some ⟨0, 0⟩ }
      let pt2 := view.getPoint geo1
      let geo2 : Geometry := { geo1 with offset := some ⟨(x - pt2.x) / scale, (y - pt2.y) / scale⟩ }
      setGeometry m cell geo2

/-- `mxEdgeHandler.prototype.connect` (lines 1124-1159), state semantics
(the begin/endUpdate bracket is captured by `connectEvents`).  When cloning:
a fresh cell duplicating the edge (value-copied geometry; `mxCell.clone`
copies no terminals) is added under the edge's parent, its untouched end is
connected to the original's terminal at that end, and the clone becomes the
operated-on edge.  Then the given end is connected to the new terminal.
Returns the updated model and the (possibly cloned) edge. -/
def connect (m : GraphModel) (edge terminal : Nat) (isSource isClone : Bool) :
    GraphModel × Nat :=
  let parent := alLookup m.parentOf edge
  if isClone then
    let cloneId := m.nextId
    let m1 : GraphModel :=
      { m with
        cells := m.cells ++ [cloneId]
        nextId := m.nextId + 1
        parentOf :=
          match parent with
          | some p => alUpdate m.parentOf cloneId p
          | none => m.parentOf
        geometryOf :=
          match alLookup m.geometryOf edge with
          | some g => alUpdate m.geometryOf cloneId g
          | none => m.geometryOf }
    let other := getTerminal m edge (!isSource)
    let m2 := connectCell m1 cloneId other (!isSource)
    let m3 := connectCell m2 cloneId (some terminal) isSource
    (m3, cloneId)
  else
    (connectCell m edge (some terminal) isSource, edge)

/-- `mxEdgeHandler.prototype.changeTerminalPoint` (lines 1166-1186), state
semantics: silently a no-op when the geometry is absent; otherwise stores
the explicit terminal point on a cloned geometry and detaches the terminal
cell for that end. -/
def changeTerminalPoint (m : GraphModel) (edge : Nat) (p : Pt) (isSource : Bool) :
    GraphModel :=
  match getGeometry m edge with
  | none => m
  | some geo0 =>
      let geo1 := geo0.setTerminalPoint p isSource
      let m1 := setGeometry m edge geo1
      connectCell m1 edge none isSource

/-- `mxEdgeHandler.prototype.changePoints` (lines 1193-1205): silently a
no-op when the geometry is absent; otherwise replaces the waypoint list on a
cloned geometry. -/
def changePoints (m : GraphModel) (edge : Nat) (points : Option (List Pt)) :
    GraphModel :=
  match getGeometry m edge with
  | none => m
  | some geo => setGeometry m edge { geo with points := points }

/-- JS `array.splice(index, 0, value)`: inserts at `index`, clamping an
out-of-range index to the array's end. -/
def jsSpliceInsert (ps : List Pt) (i : Nat) (v : Pt) : List Pt :=
  ps.take i ++ v :: ps.drop i

/-- `mxEdgeHandler.prototype.addPointAt` (lines 1227-1252): silently a no-op
when the geometry is absent; otherwise splices the point into the cloned
geometry's waypoints at the nearest-segment index computed by the view from
the translated, scaled coordinates (sole point when the list was absent),
then rebuilds the handler (no model effect). -/
def addPointAt (view : ViewFns) (tr : Pt) (scale : ℚ) (m : GraphModel) (cell : Nat)
    (x y : ℚ) : GraphModel :=
  match getGeometry m cell with
  | none => m
  | some geo0 =>
      let pt : Pt := ⟨x, y⟩
      let index := view.findNearestSegment ((pt.x + tr.x) * scale) ((pt.y + tr.y) * scale)
      let newPts :=
        match geo0.points with
        | none => [pt]
        | some ps => jsSpliceInsert ps index pt
      setGeometry m cell { geo0 with points := some newPts }

/-! ### GestureController: `mouseUp` -/

/-- The commit operations and user-visible effects `mouseUp` can trigger. -/
inductive CommitCall where
  | alertC (msg : String)
  | moveLabelC
  | connectC
  | changeTerminalPointC
  | changePointsC
  | revalidateC
deriving DecidableEq, Repr

/-- The graph/view environment `mouseUp` consults: policy flags, the resolved
clone trigger (`isCloneEvent && cloneEnabled && isCellsCloneable`), the view
transform, panning, the parent state's origin when present, and the view
callbacks for `moveLabel`. -/
structure GraphEnv where
  allowDanglingEdges : Bool
  cloneFlag : Bool
  scale : ℚ
  translate : Pt
  panDx : ℚ
  panDy : ℚ
  parentStateOrigin : Option Pt
  view : ViewFns

/-- The handler fields `mouseUp` reads: the armed handle index, the anchor
coordinates from `start`, the gesture flags, the last validation error, the
label position, the previewed waypoints, the absolute points, whether the
marker object is present, the constraint handler's focus/constraint and the
marker's valid state (as cell ids). -/
structure HandlerState where
  index : Option Int
  startX : ℚ
  startY : ℚ
  isLabel : Bool
  isSource : Bool
  isTarget : Bool
  active : Bool
  error : Option String
  label : Pt
  points : Option (List Pt)
  abspoints : List Pt
  markerPresent : Bool
  constraintFocusCell : Option Nat
  constraintHasConstraint : Bool
  markerValidCell : Option Nat

/-- `mxEdgeHandler.prototype.mouseUp` (lines 905-997).  Guarded by an armed
index and a live marker; a pointer that has not moved from the anchor skips
the whole commit dispatch.  Otherwise: a non-null error alerts only when
non-empty; a label gesture commits `moveLabel`; an endpoint gesture resolves
a terminal (constraint focus first, then the marker's valid state) and
commits `connect`, or — dangling allowed — converts the dragged absolute end
point to parent-relative coordinates and commits `changeTerminalPoint`
(`Except.error` renders the JS undefined dereference when `abspoints` lacks
the endpoint); an active waypoint preview commits `changePoints`; else the
edge is revalidated.  The final reset and selection update mutate no model
state.  Returns the model and the list of performed calls. -/
def mouseUp (env : GraphEnv) (hs : HandlerState) (stateCell : Nat) (meX meY : ℚ)
    (m : GraphModel) : Except Unit (GraphModel × List CommitCall) :=
  if hs.index.isSome && hs.markerPresent then
    if meX ≠ hs.startX ∨ meY ≠ hs.startY then
      match hs.error with
      | some err => Except.ok (m, if 0 < err.length then [CommitCall.alertC err] else [])
      | none =>
          if hs.isLabel then
            Except.ok (moveLabel env.view env.scale m stateCell hs.label.x hs.label.y,
              [CommitCall.moveLabelC])
          else if hs.isSource || hs.isTarget then
            let terminal : Option Nat :=
              match
                (if hs.constraintHasConstraint && hs.constraintFocusCell.isSome then
                  hs.constraintFocusCell
                else none) with
              | some t => some t
              | none => hs.markerValidCell
            match terminal with
            | some t =>
                Except.ok ((connect m stateCell t hs.isSource env.cloneFlag).1,
                  [CommitCall.connectC])
            | none =>
                if env.allowDanglingEdges then
                  match hs.abspoints.get?
                      (if hs.isSource then 0 else hs.abspoints.length - 1) with
                  | none => Except.error ()
                  | some p0 =>
                      let p1 : Pt := ⟨p0.x / env.scale - env.translate.x,
                        p0.y / env.scale - env.translate.y⟩
                      let p2 : Pt :=
                        match env.parentStateOrigin with
                        | some o => ⟨p1.x - o.x, p1.y - o.y⟩
                        | none => p1
                      let p3 : Pt := ⟨p2.x - env.panDx / env.scale,
                        p2.y - env.panDy / env.scale⟩
                      Except.ok (changeTerminalPoint m stateCell p3 hs.isSource,
                        [CommitCall.changeTerminalPointC])
                else Except.ok (m, [])
          else if hs.active then
            Except.ok (changePoints m stateCell hs.points, [CommitCall.changePointsC])
          else Except.ok (m, [CommitCall.revalidateC])
    else Except.ok (m, [])
  else Except.ok (m, [])

/-! ### Concrete fixtures used by the witnesses -/

/-- A view-callback bundle with inert callbacks, for concrete evaluation. -/
def testView : ViewFns :=
  { getRelativePoint := fun _ _ => ⟨0, 0⟩
    getPoint := fun _ => ⟨0, 0⟩
    findNearestSegment := fun _ _ => 0 }

/-- A concrete graph/view environment. -/
def testEnv : GraphEnv :=
  { allowDanglingEdges := true
    cloneFlag := false
    scale := 1
    translate := ⟨0, 0⟩
    panDx := 0
    panDy := 0
    parentStateOrigin := none
    view := testView }

/-- A concrete edge geometry with one interior waypoint. -/
def testGeo : Geometry :=
  { points := some [⟨1, 1⟩]
    x := 0
    y := 0
    offset := none
    sourcePoint := none
    targetPoint := none }

/-- A concrete model: edge 0 between terminals 1 and 2 under parent 9, with
geometry `testGeo`; 3 is the next fresh id. -/
def testModel : GraphModel :=
  { cells := [0, 1, 2, 9]
    parentOf := [(0, 9)]
    sourceOf := [(0, 1)]
    targetOf := [(0, 2)]
    geometryOf := [(0, testGeo)]
    nextId := 3 }

/-- A concrete model whose edge 7 has no geometry. -/
def testModelNoGeo : GraphModel :=
  { cells := [7]
    parentOf := []
    sourceOf := []
    targetOf := []
    geometryOf := []
    nextId := 8 }

/-- A concrete armed drag session on an interior waypoint, anchored at
(3, 4), with no validation error. -/
def testHS : HandlerState :=
  { index := some 1
    startX := 3
    startY := 4
    isLabel := false
    isSource := false
    isTarget := false
    active := true
    error := none
    label := ⟨0, 0⟩
    points := some [⟨5, 5⟩]
    abspoints := [⟨0, 0⟩, ⟨5, 5⟩, ⟨9, 9⟩]
    markerPresent := true
    constraintFocusCell := none
    constraintHasConstraint := false
    markerValidCell := none }

/-- Like `testHS` but carrying the silent (empty-string) validation error of
a dangling endpoint drag with `allowDanglingEdges = false`. -/
def testHSEmptyError : HandlerState :=
  { testHS with isSource := true, error := some "" }

/-! ### Claim theorems -/

/-- C1: a drag gesture whose pointer-up is at the anchor coordinates
(`me.getX() == startX` and `me.getY() == startY` in `mouseUp`) commits
nothing: no commit operation is invoked and the model — in particular the
committed edge geometry — is returned unchanged. -/
theorem c1_noop_gesture_commits_nothing (env : GraphEnv) (hs : HandlerState)
    (stateCell : Nat) (meX meY : ℚ) (m : GraphModel)
    (hidx : hs.index.isSome = true) (hx : meX = hs.startX) (hy : meY = hs.startY) :
    mouseUp env hs stateCell meX meY m = Except.ok (m, []) := by
  subst hx hy
  unfold mouseUp
  simp

/-- Witness for C1 at a concrete armed session, anchor (3, 4), pointer-up at
(3, 4). -/
theorem c1_witness :
    mouseUp testEnv testHS 0 3 4 testModel = Except.ok (testModel, []) :=
  c1_noop_gesture_commits_nothing testEnv testHS 0 3 4 testModel (by decide) rfl rfl

/-- C2 counterexample: `changePoints` mutates the model (a bare
`setGeometry`) with no `beginUpdate`/`endUpdate` bracket around it, so not
every commit-operation mutation happens inside a transaction bracket. -/
theorem c2_counterexample :
    changePointsEvents true = [MEvent.setGeometryE] ∧
    mutationsBracketed (changePointsEvents true) = false := by
  decide

/-- C2 amended: `connect` and `changeTerminalPoint` perform their mutations
inside a `beginUpdate`/`endUpdate` bracket whose `endUpdate` is guaranteed
(try/finally) on every exit path including a throwing mutation; but
`changePoints`, `moveLabel`, `addPointAt` and `removePoint` call
`model.setGeometry` directly — at most that single mutation, with no
handler-level bracket around it. -/
theorem c2_amended_bracketing :
    ∀ (isClone throws geoPresent interior ptsPresent : Bool),
      mutationsBracketed (connectEvents isClone throws) = true ∧
      (connectEvents isClone throws).contains MEvent.endUpdate = true ∧
      mutationsBracketed (changeTerminalPointEvents geoPresent throws) = true ∧
      (!geoPresent ||
        (changeTerminalPointEvents geoPresent throws).contains MEvent.endUpdate) = true ∧
      (changePointsEvents geoPresent).all (fun e => e == MEvent.setGeometryE) = true ∧
      ((changePointsEvents geoPresent).contains MEvent.beginUpdate) = false ∧
      (moveLabelEvents geoPresent).all (fun e => e == MEvent.setGeometryE) = true ∧
      ((moveLabelEvents geoPresent).contains MEvent.beginUpdate) = false ∧
      (addPointAtEvents geoPresent).all (fun e => e == MEvent.setGeometryE) = true ∧
      ((addPointAtEvents geoPresent).contains MEvent.beginUpdate) = false ∧
      (removePointEvents interior ptsPresent).all (fun e => e == MEvent.setGeometryE) = true ∧
      ((removePointEvents interior ptsPresent).contains MEvent.beginUpdate) = false := by
  decide

/-- C3: when an endpoint is dragged and neither a terminal state nor a
marked marker state resolved, `updatePreviewState` sets the validation error
to `null` if dangling edges are allowed and to the empty string otherwise;
and at pointer-up an empty-string error suppresses the alert and leaves the
model (hence the geometry) unmutated. -/
theorem c3_dangling_error_and_silent_mouseup (src tgt allow : Bool)
    (e : Option String) (env : GraphEnv) (hs : HandlerState) (cell : Nat)
    (x y : ℚ) (m : GraphModel) (hst : (src || tgt) = true)
    (he : hs.error = some "") :
    updatePreviewState src tgt none none allow e = (if allow then none else some "") ∧
    mouseUp env hs cell x y m = Except.ok (m, []) := by
  constructor
  · unfold updatePreviewState
    simp [hst]
  · unfold mouseUp
    simp [he]

/-- Witness for C3: source-endpoint drag, both resolution results absent,
dangling not allowed; and a concrete pointer-up under the empty-string
error. -/
theorem c3_witness :
    updatePreviewState true false none none false none = (if false then none else some "") ∧
    mouseUp testEnv testHSEmptyError 0 10 10 testModel = Except.ok (testModel, []) :=
  c3_dangling_error_and_silent_mouseup true false false none testEnv testHSEmptyError
    0 10 10 testModel (by decide) (by decide)

/-- C4 counterexample: with the marker holding valid state 1 and the
constraint handler holding focus 2 (≠ 1) with a constraint,
`getPreviewTerminalState` returns the marker's state 1, not the constraint's
focus — the claim that the constraint's focus is the returned preview
terminal state fails. -/
theorem c4_counterexample :
    (getPreviewTerminalState (some 1) (some 2) (some 0)).1 = some 1 ∧
    (getPreviewTerminalState (some 1) (some 2) (some 0)).1 ≠ some 2 := by
  decide

/-- C4 amended: when the marker has a valid state and the constraint handler
has both focus and constraint, the marker is indeed reset (its result
invalidated for subsequent queries, e.g. the terminal resolution at
mouse-up), but the state returned by `getPreviewTerminalState` is still the
marker's previously captured valid state; the constraint's focus is returned
only when the marker has no valid state. -/
theorem c4_amended_marker_state_returned (s f : Nat) (c : Option Nat) :
    (getPreviewTerminalState (some s) (some f) c).2 = c.isSome ∧
    (getPreviewTerminalState (some s) (some f) c).1 = some s ∧
    (c.isSome = true → (getPreviewTerminalState none (some f) c).1 = some f) := by
  refine ⟨?_, ?_, ?_⟩
  · simp [getPreviewTerminalState]
  · simp [getPreviewTerminalState]
  · intro hc
    simp [getPreviewTerminalState, hc]

/-- Witness for C4's amended theorem at marker state 3, focus 4,
constraint 0. -/
theorem c4_amended_witness :
    (getPreviewTerminalState (some 3) (some 4) (some 0)).2 = (some 0 : Option Nat).isSome ∧
    (getPreviewTerminalState (some 3) (some 4) (some 0)).1 = some 3 ∧
    ((some 0 : Option Nat).isSome = true →
      (getPreviewTerminalState none (some 4) (some 0)).1 = some 4) :=
  c4_amended_marker_state_returned 3 4 (some 0)

/-- C8: every commit operation on an edge whose model geometry is absent is
a silent no-op — `moveLabel`, `changeTerminalPoint`, `changePoints` and
`addPointAt` return the model unchanged (and raise nothing) when
`getGeometry` yields `null`. -/
theorem c8_null_geometry_noop (view : ViewFns) (tr : Pt) (scale : ℚ)
    (m : GraphModel) (cell : Nat) (x y : ℚ) (p : Pt) (s : Bool)
    (pts : Option (List Pt)) (h : getGeometry m cell = none) :
    moveLabel view scale m cell x y = m ∧
    changeTerminalPoint m cell p s = m ∧
    changePoints m cell pts = m ∧
    addPointAt view tr scale m cell x y = m := by
  refine ⟨?_, ?_, ?_, ?_⟩ <;>
    simp [moveLabel, changeTerminalPoint, changePoints, addPointAt, h]

/-- Witness for C8 on a concrete model whose edge 7 has no geometry. -/
theorem c8_witness :
    moveLabel testView 1 testModelNoGeo 7 2 3 = testModelNoGeo ∧
    changeTerminalPoint testModelNoGeo 7 ⟨2, 3⟩ true = testModelNoGeo ∧
    changePoints testModelNoGeo 7 (some [⟨2, 3⟩]) = testModelNoGeo ∧
    addPointAt testView ⟨0, 0⟩ 1 testModelNoGeo 7 2 3 = testModelNoGeo :=
  c8_null_geometry_noop testView ⟨0, 0⟩ 1 testModelNoGeo 7 2 3 ⟨2, 3⟩ true
    (some [⟨2, 3⟩]) (by decide)

/-- C10: the preview path has no absent-geometry no-op branch —
`getPreviewPoints` dereferences the geometry unconditionally, so it errors
(the JS TypeError) exactly when the geometry is absent, and is total
whenever a geometry is present. -/
theorem c10_preview_requires_geometry :
    (∀ (isSource isTarget reset : Bool) (index : Nat) (scale : ℚ) (tr : Pt)
        (orig : Option Pt) (p : Pt),
      getPreviewPoints none isSource isTarget reset index scale tr orig p =
        Except.error ()) ∧
    (∀ (geo : Geometry) (isSource isTarget reset : Bool) (index : Nat) (scale : ℚ)
        (tr : Pt) (orig : Option Pt) (p : Pt),
      ∃ r, getPreviewPoints (some geo) isSource isTarget reset index scale tr orig p =
        Except.ok r) := by
  constructor
  · intro isSource isTarget reset index scale tr orig p
    rfl
  · intro geo isSource isTarget reset index scale tr orig p
    unfold getPreviewPoints
    dsimp only
    split
    · split
      · exact ⟨_, rfl⟩
      · exact ⟨_, rfl⟩
    · split
      · exact ⟨_, rfl⟩
      · exact ⟨_, rfl⟩

/-- C5 counterexample: snapping enabled, tolerance 5 (gridSize 10, scale 1),
grid disabled.  The x axis matches the source center (|3-0| < 5) and then the
target center against the updated value (|0-4| < 5): the code yields x = 4
(last match), while the claim's first-match rule yields x = 0.  The y axis is
within tolerance of another absolute point (|50-48| < 5, index 1 ≠ dragged
index 0): the claim snaps y to 48, while the code's loop over `abspoints`
never executes and leaves y = 50. -/
theorem c5_counterexample :
    getPointForEvent true 10 1 false ⟨0, 0⟩ (some ⟨0, 100⟩) (some ⟨4, 200⟩)
        [some ⟨0, 100⟩, some ⟨40, 48⟩, some ⟨4, 200⟩] (some 0) 3 50 = ⟨4, 50⟩ ∧
    getPointForEventClaimed true 10 1 false ⟨0, 0⟩ (some ⟨0, 100⟩) (some ⟨4, 200⟩)
        [some ⟨0, 100⟩, some ⟨40, 48⟩, some ⟨4, 200⟩] (some 0) 3 50 = ⟨0, 48⟩ ∧
    (⟨4, 50⟩ : Pt) ≠ ⟨0, 48⟩ := by
  refine ⟨?_, ?_, ?_⟩ <;> with_unfolding_all decide

/-- C5 amended: with snapping enabled and a positive tolerance,
`getPointForEvent` snaps per axis against the source terminal's routing
center and then the target terminal's, each candidate tested against the
current (possibly already snapped) value so the last matching candidate wins
per axis; the loop over the edge's other absolute points never executes (its
bound is the array itself, coerced to NaN/0), so the result is independent
of the absolute-point list and of the dragged index. -/
theorem c5_amended_terminal_snap_last_match (snapToTerminals : Bool)
    (gridSize scale : ℚ) (gridEnabled : Bool) (tr : Pt) (src tgt : Option Pt)
    (aps1 aps2 : List (Option Pt)) (idx1 idx2 : Option Int) (gx gy sx sy tx ty : ℚ)
    (hsrc : src = some ⟨sx, sy⟩) (htgt : tgt = some ⟨tx, ty⟩)
    (htt : 0 < getSnapToTerminalTolerance gridSize scale)
    (h1 : |gx - sx| < getSnapToTerminalTolerance gridSize scale)
    (h2 : |sx - tx| < getSnapToTerminalTolerance gridSize scale) :
    (getPointForEvent snapToTerminals gridSize scale gridEnabled tr src tgt aps1 idx1 gx gy =
      getPointForEvent snapToTerminals gridSize scale gridEnabled tr src tgt aps2 idx2 gx gy) ∧
    (getPointForEvent true gridSize scale gridEnabled tr src tgt aps1 idx1 gx gy).x = tx := by
  subst hsrc
  subst htgt
  have hd : (decide (0 < getSnapToTerminalTolerance gridSize scale)) = true :=
    decide_eq_true htt
  constructor
  · rfl
  · simp only [getPointForEvent, hd, Bool.true_and, if_true, snapToPoint, snapAxis,
      if_pos h1, if_pos h2, abspointsLoopIterations, List.range_zero, List.foldl_nil]
    cases gridEnabled <;> simp

/-- Witness for C5's amended theorem: tolerance 5, source center x = 0,
target center x = 4, pointer x = 3; the code snaps x to 0 and then to 4. -/
theorem c5_amended_witness :
    (getPointForEvent true 10 1 false ⟨0, 0⟩ (some ⟨0, 100⟩) (some ⟨4, 200⟩) [] none 3 50 =
      getPointForEvent true 10 1 false ⟨0, 0⟩ (some ⟨0, 100⟩) (some ⟨4, 200⟩)
        [some ⟨1, 1⟩] (some 0) 3 50) ∧
    (getPointForEvent true 10 1 false ⟨0, 0⟩ (some ⟨0, 100⟩) (some ⟨4, 200⟩)
        [] none 3 50).x = 4 :=
  c5_amended_terminal_snap_last_match true 10 1 false ⟨0, 0⟩ (some ⟨0, 100⟩)
    (some ⟨4, 200⟩) [] [some ⟨1, 1⟩] none (some 0) 3 50 0 100 4 200 rfl rfl
    (by with_unfolding_all decide) (by with_unfolding_all decide)
    (by with_unfolding_all decide)

/-- C6: `connect` with `isClone = true` adds a duplicate of the edge under
the edge's parent; the clone is a fresh cell distinct from the original; the
clone's untouched end carries the terminal the original edge has at that end
(unchanged since gesture start, the preview never mutating the model); the
clone's dragged end is set to the new terminal; the returned cell is the
clone; and the original edge's geometry is untouched (the clone carrying a
value copy of it). -/
theorem c6_clone_connect (m : GraphModel) (edge terminal par : Nat)
    (isSource : Bool) (g : Geometry) (hEdge : edge ∈ m.cells)
    (hFresh : m.nextId ∉ m.cells) (hPar : alLookup m.parentOf edge = some par)
    (hGeo : getGeometry m edge = some g) :
    (connect m edge terminal isSource true).2 ≠ edge ∧
    (connect m edge terminal isSource true).2 ∉ m.cells ∧
    (connect m edge terminal isSource true).2 ∈ (connect m edge terminal isSource true).1.cells ∧
    alLookup (connect m edge terminal isSource true).1.parentOf
      (connect m edge terminal isSource true).2 = some par ∧
    getTerminal (connect m edge terminal isSource true).1
      (connect m edge terminal isSource true).2 (!isSource) =
      getTerminal m edge (!isSource) ∧
    getTerminal (connect m edge terminal isSource true).1
      (connect m edge terminal isSource true).2 isSource = some terminal ∧
    getGeometry (connect m edge terminal isSource true).1 edge = some g ∧
    getGeometry (connect m edge terminal isSource true).1
      (connect m edge terminal isSource true).2 = some g := by
  have hNe : edge ≠ m.nextId := by
    intro h
    exact hFresh (h ▸ hEdge)
  have hGeo2 : alLookup m.geometryOf edge = some g := hGeo
  cases isSource with
  | true =>
      cases hOther : alLookup m.targetOf edge with
      | none =>
          refine ⟨?_, ?_, ?_, ?_, ?_, ?_, ?_, ?_⟩ <;>
            simp [connect, connectCell, getTerminal, getGeometry, hPar, hGeo2, hOther,
              alLookup_update_self, alLookup_update_ne, alLookup_remove_self,
              Ne.symm hNe, hFresh]
      | some t =>
          refine ⟨?_, ?_, ?_, ?_, ?_, ?_, ?_, ?_⟩ <;>
            simp [connect, connectCell, getTerminal, getGeometry, hPar, hGeo2, hOther,
              alLookup_update_self, alLookup_update_ne, alLookup_remove_self,
              Ne.symm hNe, hFresh]
  | false =>
      cases hOther : alLookup m.sourceOf edge with
      | none =>
          refine ⟨?_, ?_, ?_, ?_, ?_, ?_, ?_, ?_⟩ <;>
            simp [connect, connectCell, getTerminal, getGeometry, hPar, hGeo2, hOther,
              alLookup_update_self, alLookup_update_ne, alLookup_remove_self,
              Ne.symm hNe, hFresh]
      | some t =>
          refine ⟨?_, ?_, ?_, ?_, ?_, ?_, ?_, ?_⟩ <;>
            simp [connect, connectCell, getTerminal, getGeometry, hPar, hGeo2, hOther,
              alLookup_update_self, alLookup_update_ne, alLookup_remove_self,
              Ne.symm hNe, hFresh]

/-- Witness for C6: cloning reconnect of edge 0 (parent 9, terminals 1 → 2,
geometry `testGeo`) to terminal 2 at the source end. -/
theorem c6_witness :
    (connect testModel 0 2 true true).2 ≠ 0 ∧
    (connect testModel 0 2 true true).2 ∉ testModel.cells ∧
    (connect testModel 0 2 true true).2 ∈ (connect testModel 0 2 true true).1.cells ∧
    alLookup (connect testModel 0 2 true true).1.parentOf
      (connect testModel 0 2 true true).2 = some 9 ∧
    getTerminal (connect testModel 0 2 true true).1
      (connect testModel 0 2 true true).2 (!true) = getTerminal testModel 0 (!true) ∧
    getTerminal (connect testModel 0 2 true true).1
      (connect testModel 0 2 true true).2 true = some 2 ∧
    getGeometry (connect testModel 0 2 true true).1 0 = some testGeo ∧
    getGeometry (connect testModel 0 2 true true).1
      (connect testModel 0 2 true true).2 = some testGeo :=
  c6_clone_connect testModel 0 2 9 true testGeo (by decide) (by decide) (by decide)
    (by with_unfolding_all decide)

/-- C7: for an interior-waypoint drag (neither source nor target, handle
index `i`), the previewed waypoint list is the edge's current
`geometry.points` with exactly the entry at `i - 1` replaced by the
converted pointer point — that entry becomes the converted point, every
other entry and the length (hence the order) are unchanged; when
`geometry.points` is absent the preview is the single-element list of the
converted point; and committing via `changePoints` stores exactly the
previewed list in the model's geometry (other geometry fields untouched). -/
theorem c7_interior_waypoint_preview_and_commit (geo : Geometry) (ps : List Pt)
    (index : Nat) (reset : Bool) (scale : ℚ) (tr : Pt) (orig : Option Pt)
    (p : Pt) (m : GraphModel) (edge : Nat) (g2 : Geometry)
    (hps : geo.points = some ps) (hidx : index - 1 < ps.length)
    (hgeo : getGeometry m edge = some g2) :
    getPreviewPoints (some geo) false false reset index scale tr orig p =
      Except.ok (some (ps.set (index - 1) (convertPoint false 0 scale tr orig p))) ∧
    (ps.set (index - 1) (convertPoint false 0 scale tr orig p)).get? (index - 1) =
      some (convertPoint false 0 scale tr orig p) ∧
    (∀ j, j ≠ index - 1 →
      (ps.set (index - 1) (convertPoint false 0 scale tr orig p)).get? j = ps.get? j) ∧
    (ps.set (index - 1) (convertPoint false 0 scale tr orig p)).length = ps.length ∧
    (∀ geo2 : Geometry, geo2.points = none →
      getPreviewPoints (some geo2) false false reset index scale tr orig p =
        Except.ok (some [convertPoint false 0 scale tr orig p])) ∧
    getGeometry (changePoints m edge
        (some (ps.set (index - 1) (convertPoint false 0 scale tr orig p)))) edge =
      some { g2 with
        points := some (ps.set (index - 1) (convertPoint false 0 scale tr orig p)) } := by
  refine ⟨?_, ?_, ?_, ?_, ?_, ?_⟩
  · unfold getPreviewPoints
    simp [hps]
  · exact List.get?_set_eq_of_lt _ hidx
  · intro j hj
    exact List.get?_set_ne _ ps (Ne.symm hj)
  · exact List.length_set ps _ _
  · intro geo2 h2
    unfold getPreviewPoints
    simp [h2]
  · unfold changePoints
    rw [hgeo]
    simp [getGeometry, setGeometry, alLookup_update_self]

/-- Witness for C7: edge 0 of the concrete model, one existing waypoint,
handle index 1, pointer (5, 7), identity view transform. -/
theorem c7_witness :
    getPreviewPoints (some testGeo) false false false 1 1 ⟨0, 0⟩ none ⟨5, 7⟩ =
      Except.ok (some ([⟨1, 1⟩].set 0 (convertPoint false 0 1 ⟨0, 0⟩ none ⟨5, 7⟩))) ∧
    ([(⟨1, 1⟩ : Pt)].set 0 (convertPoint false 0 1 ⟨0, 0⟩ none ⟨5, 7⟩)).get? 0 =
      some (convertPoint false 0 1 ⟨0, 0⟩ none ⟨5, 7⟩) ∧
    (∀ j, j ≠ 0 →
      ([(⟨1, 1⟩ : Pt)].set 0 (convertPoint false 0 1 ⟨0, 0⟩ none ⟨5, 7⟩)).get? j =
        [(⟨1, 1⟩ : Pt)].get? j) ∧
    ([(⟨1, 1⟩ : Pt)].set 0 (convertPoint false 0 1 ⟨0, 0⟩ none ⟨5, 7⟩)).length =
      [(⟨1, 1⟩ : Pt)].length ∧
    (∀ geo2 : Geometry, geo2.points = none →
      getPreviewPoints (some geo2) false false false 1 1 ⟨0, 0⟩ none ⟨5, 7⟩ =
        Except.ok (some [convertPoint false 0 1 ⟨0, 0⟩ none ⟨5, 7⟩])) ∧
    getGeometry (changePoints testModel 0
        (some ([⟨1, 1⟩].set 0 (convertPoint false 0 1 ⟨0, 0⟩ none ⟨5, 7⟩)))) 0 =
      some { testGeo with
        points := some ([⟨1, 1⟩].set 0 (convertPoint false 0 1 ⟨0, 0⟩ none ⟨5, 7⟩)) } :=
  c7_interior_waypoint_preview_and_commit testGeo [⟨1, 1⟩] 1 false 1 ⟨0, 0⟩ none
    ⟨5, 7⟩ testModel 0 testGeo rfl (by decide) rfl

/-! ### Equivalence of the hit-test fold with the argmin specification -/

/-- The running-minimum step of `checkShape`/`getHandleForEvent`, lifted to
the qualifying candidate entries: the entry takes over when no minimum is
recorded yet or its distance is less than or equal to the running minimum. -/
def foldE : List (Int × ℚ) → Option Int × Option ℚ → Option Int × Option ℚ
  | [], st => st
  | (j, d) :: rest, st =>
      foldE rest
        (match st.2 with
         | none => (some j, some d)
         | some mv => if d ≤ mv then (some j, some d) else st)

theorem foldE_append (a b : List (Int × ℚ)) (st : Option Int × Option ℚ) :
    foldE (a ++ b) st = foldE b (foldE a st) := by
  induction a generalizing st with
  | nil => simp [foldE]
  | cons hd rest ih =>
      obtain ⟨j, d⟩ := hd
      simp [foldE, ih]

theorem foldE_some (cs : List (Int × ℚ)) :
    ∀ (j : Int) (mv : ℚ),
      foldE cs (some j, some mv) =
        match lastArgmin cs with
        | none => (some j, some mv)
        | some e => if e.2 ≤ mv then (some e.1, some e.2) else (some j, some mv) := by
  induction cs with
  | nil =>
      intro j mv
      simp [foldE, lastArgmin]
  | cons hd rest ih =>
      obtain ⟨i, d⟩ := hd
      intro j mv
      rcases hrest : lastArgmin rest with _ | ⟨j2, m2⟩
      · by_cases hle : d ≤ mv
        · simp [foldE, hle, ih, hrest, lastArgmin]
        · simp [foldE, hle, ih, hrest, lastArgmin]
      · rcases lt_or_le d m2 with h2 | h2 <;> by_cases hle : d ≤ mv
        · simp [foldE, ih, hrest, lastArgmin, hle, h2, not_le.mpr h2]
        · simp [foldE, ih, hrest, lastArgmin, hle, h2,
            not_le.mpr (lt_trans (not_le.mp hle) h2)]
        · simp [foldE, ih, hrest, lastArgmin, hle, not_lt.mpr h2, h2.trans hle]
        · simp [foldE, ih, hrest, lastArgmin, hle, not_lt.mpr h2]

theorem foldE_start (cs : List (Int × ℚ)) :
    ∀ (r0 : Option Int),
      foldE cs (r0, none) =
        match lastArgmin cs with
        | none => (r0, none)
        | some e => (some e.1, some e.2) := by
  induction cs with
  | nil =>
      intro r0
      simp [foldE, lastArgmin]
  | cons hd rest ih =>
      obtain ⟨i, d⟩ := hd
      intro r0
      rcases hrest : lastArgmin rest with _ | ⟨j2, m2⟩
      · simp [foldE, foldE_some, hrest, lastArgmin]
      · rcases lt_or_le d m2 with h2 | h2
        · simp [foldE, foldE_some, hrest, lastArgmin, h2, not_le.mpr h2]
        · simp [foldE, foldE_some, hrest, lastArgmin, h2, not_lt.mpr h2]

theorem bendsLoop_eq_foldE (gx gy : ℚ) (hit : Option Rect) (bl : List HShape) :
    ∀ (i : Nat) (st : Option Int × Option ℚ),
      bendsLoop gx gy hit i bl st = foldE (bendEntries gx gy hit i bl) st := by
  induction bl with
  | nil =>
      intro i st
      simp [bendsLoop, bendEntries, foldE]
  | cons sh rest ih =>
      intro i st
      by_cases hq : qualifies gx gy hit sh = true
      · have hstep :
            (match checkShape gx gy hit st.2 (some sh) with
             | (true, d) => (some (Int.ofNat i), d)
             | (false, d) => (st.1, d)) =
            (match st.2 with
             | none => (some (Int.ofNat i), some (distSq gx gy sh))
             | some mv =>
                 if distSq gx gy sh ≤ mv then (some (Int.ofNat i), some (distSq gx gy sh))
                 else st) := by
          obtain ⟨r, mv⟩ := st
          rcases mv with _ | mv
          · simp [checkShape, hq]
          · simp only [checkShape, hq, if_true]
            by_cases hle : distSq gx gy sh ≤ mv <;> simp [hle]
        simp only [bendsLoop]
        rw [hstep, ih]
        simp only [bendEntries, shapeEntry, hq, if_true, foldE]
      · have hstep : checkShape gx gy hit st.2 (some sh) = (false, st.2) := by
          simp [checkShape, hq]
        simp only [bendsLoop]
        rw [hstep]
        simp only [bendEntries, shapeEntry, hq]
        rw [ih]
        simp

/-- C9 amended: `getHandleForEvent` checks the label handle first and the
bends in index order, and among the qualifying handles returns the one with
minimum squared center distance, ties resolved in favor of the later-checked
handle, `none` when nothing qualifies — except that when the event's direct
source is the edge's text label, the label handle is preselected with no
recorded distance, so any qualifying bend overrides it regardless of
distance (the bends then compete among themselves by the same rule, and the
label is returned only when no bend qualifies). -/
theorem c9_amended_last_checked_min (isMouseEvent : Bool) (tolCfg : ℚ)
    (allowHandleBoundsCheck isIE textIsSource : Bool) (labelShape : Option HShape)
    (bends : Option (List HShape)) (gx gy : ℚ) :
    getHandleForEvent isMouseEvent tolCfg allowHandleBoundsCheck isIE textIsSource
        labelShape bends gx gy =
      (let tol := if isMouseEvent then (1 : ℚ) else tolCfg
       let hit : Option Rect :=
         if allowHandleBoundsCheck && (isIE || decide (0 < tol)) then
           some ⟨gx - tol, gy - tol, 2 * tol, 2 * tol⟩
         else none
       if textIsSource then
         match lastArgmin (bendEntries gx gy hit 0 (bends.getD [])) with
         | none => some LABEL_HANDLE
         | some e => some e.1
       else
         (lastArgmin (labelEntries gx gy hit false labelShape
             ++ bendEntries gx gy hit 0 (bends.getD []))).map Prod.fst) := by
  unfold getHandleForEvent
  simp only
  generalize (if allowHandleBoundsCheck &&
      (isIE || decide (0 < if isMouseEvent then (1 : ℚ) else tolCfg)) then
      some (Rect.mk (gx - (if isMouseEvent then (1 : ℚ) else tolCfg))
        (gy - (if isMouseEvent then (1 : ℚ) else tolCfg))
        (2 * (if isMouseEvent then (1 : ℚ) else tolCfg))
        (2 * (if isMouseEvent then (1 : ℚ) else tolCfg)))
      else none) = hit
  cases textIsSource with
  | true =>
      simp only [if_true]
      cases bends with
      | none => simp [bendEntries, lastArgmin]
      | some bl =>
          simp only [Option.getD]
          rw [bendsLoop_eq_foldE, foldE_start]
          rcases lastArgmin (bendEntries gx gy hit 0 bl) with _ | e <;> simp
  | false =>
      simp only [Bool.false_eq_true, if_false]
      cases labelShape with
      | none =>
          have hinit : checkShape gx gy hit none none = (false, none) := by
            simp [checkShape]
          rw [hinit]
          cases bends with
          | none => simp [labelEntries, bendEntries, lastArgmin]
          | some bl =>
              simp only [Option.getD, labelEntries, List.nil_append]
              rw [bendsLoop_eq_foldE, foldE_start]
              rcases lastArgmin (bendEntries gx gy hit 0 bl) with _ | e <;> simp
      | some l =>
          have hl : ({ l with isEventSource := l.isEventSource || false } : HShape) = l := by
            cases l
            simp
          by_cases hq : qualifies gx gy hit l = true
          · have hinit : checkShape gx gy hit none (some l) =
                (true, some (distSq gx gy l)) := by
              simp [checkShape, hq]
            have hlab : labelEntries gx gy hit false (some l) =
                [(LABEL_HANDLE, distSq gx gy l)] := by
              simp [labelEntries, shapeEntry, hl, hq]
            rw [hinit, hlab]
            cases bends with
            | none =>
                simp [bendEntries, lastArgmin]
            | some bl =>
                simp only [Option.getD, List.cons_append, List.nil_append]
                rw [bendsLoop_eq_foldE, foldE_some]
                rcases hrest : lastArgmin (bendEntries gx gy hit 0 bl) with _ | ⟨j2, m2⟩
                · simp [lastArgmin, hrest]
                · simp only [lastArgmin, hrest]
                  rcases lt_or_le (distSq gx gy l) m2 with h2 | h2
                  · rw [if_neg (by linarith), if_pos h2]
                    simp
                  · rw [if_pos h2, if_neg (by linarith)]
                    simp
          · have hinit : checkShape gx gy hit none (some l) = (false, none) := by
              simp [checkShape, hq]
            have hlab : labelEntries gx gy hit false (some l) = [] := by
              simp [labelEntries, shapeEntry, hl, hq]
            rw [hinit, hlab]
            cases bends with
            | none => simp [bendEntries, lastArgmin]
            | some bl =>
                simp only [Option.getD, List.nil_append]
                rw [bendsLoop_eq_foldE, foldE_start]
                rcases lastArgmin (bendEntries gx gy hit 0 bl) with _ | e <;> simp

/-- C9 counterexample: the event's direct source is the edge's text label
(so the label handle qualifies with distance 0 from the pointer at its
center), and one bend qualifies as direct event source at squared distance
64; the code returns the bend (index 0) because the label's distance was
never recorded, while the claim's minimum-distance rule returns the label
handle. -/
theorem c9_counterexample :
    getHandleForEvent true 0 true false true
        (some ⟨true, false, ⟨-2, -2, 4, 4⟩⟩)
        (some [⟨true, true, ⟨6, -2, 4, 4⟩⟩]) 0 0 = some 0 ∧
    getHandleForEventClaimed true 0 true false true
        (some ⟨true, false, ⟨-2, -2, 4, 4⟩⟩)
        (some [⟨true, true, ⟨6, -2, 4, 4⟩⟩]) 0 0 = some LABEL_HANDLE ∧
    (some (0 : Int)) ≠ some LABEL_HANDLE := by
  refine ⟨?_, ?_, ?_⟩ <;> with_unfolding_all decide

end MxEdge
